import Mathlib

/-!
# h2fs: the entry point of a minimal on-disk filesystem utility

`src/Eager/cs270/h2fs.c` holds one function, `main`, which wires five
collaborators declared in `block_io.h` and `ilist.h` (`open_device`,
`read_block`, `init_ilist`, `cleanup_ilist`, `close_device`) together with
the C library's `malloc`, `free` and `printf`.

The embedding is explicit state passing.  The collaborators are not part of
the translation unit, so they are parameters: each is a function on an
abstract world `W` that returns its C result together with the next world.
Every call `main` makes is appended to a trace at the moment it returns, so
the trace is the chronological record of one run.
-/

namespace H2fs

/-! ## Events of a run -/

/-- Names of the operations `main` can invoke. -/
inductive Op
  | open_device
  | malloc
  | read_block
  | init_ilist
  | free
  | cleanup_ilist
  | close_device
  | printf
deriving DecidableEq, Repr

/-- One completed call made by `main`, with the arguments passed and the value
returned.  Pointers are addresses (`0` is `NULL`). -/
inductive Event
  | open_device (path : String) (result : Int)
  | malloc (size : Nat) (ptr : Nat)
  | read_block (block : Int) (buf : Nat) (size : Nat) (result : Int)
  | init_ilist (sb : Nat) (result : Int)
  | free (ptr : Nat)
  | cleanup_ilist (result : Int)
  | close_device (result : Int)
  | printf (text : String)
deriving DecidableEq, Repr

/-- The operation an event is a call of. -/
def Event.op : Event → Op
  | .open_device _ _ => Op.open_device
  | .malloc _ _ => Op.malloc
  | .read_block _ _ _ _ => Op.read_block
  | .init_ilist _ _ => Op.init_ilist
  | .free _ => Op.free
  | .cleanup_ilist _ => Op.cleanup_ilist
  | .close_device _ => Op.close_device
  | .printf _ => Op.printf

/-- The five operations of `block_io.h` and `ilist.h`; `malloc`, `free` and
`printf` belong to the C library. -/
def Op.is_collaborator : Op → Bool
  | .open_device => true
  | .read_block => true
  | .init_ilist => true
  | .cleanup_ilist => true
  | .close_device => true
  | _ => false

/-- Operations that need the device to be open. -/
def Op.needs_device : Op → Bool
  | .read_block => true
  | .init_ilist => true
  | .cleanup_ilist => true
  | _ => false

/-- The pointer argument an event hands to the callee, if it has one. -/
def Event.pointer_arg : Event → Option Nat
  | .read_block _ buf _ _ => some buf
  | .init_ilist sb _ => some sb
  | .free ptr => some ptr
  | _ => none

/-! ## The collaborators and the machine state -/

/-- What `main` is linked against.  `sizeof_superblock` is `sizeof(superblock)`;
the `superblock` type is declared in a header that is not part of the
translation unit.  The results of `read_block`, `init_ilist`, `cleanup_ilist`
and `close_device` are returned here although `main` discards them. -/
structure Collaborators (W : Type) where
  sizeof_superblock : Nat
  open_device : String → W → Int × W
  malloc : Nat → W → Nat × W
  read_block : Int → Nat → Nat → W → Int × W
  init_ilist : Nat → W → Int × W
  free : Nat → W → W
  cleanup_ilist : W → Int × W
  close_device : W → Int × W

/-- State of a run: the world the collaborators act on and the calls made so
far, oldest first. -/
structure Machine (W : Type) where
  world : W
  trace : List Event

variable {W : Type}

/-- Call `open_device(path)`. -/
def call_open_device (c : Collaborators W) (path : String) (m : Machine W) : Int × Machine W :=
  let r := c.open_device path m.world
  (r.1, { world := r.2, trace := m.trace ++ [Event.open_device path r.1] })

/-- Call `malloc(size)`. -/
def call_malloc (c : Collaborators W) (size : Nat) (m : Machine W) : Nat × Machine W :=
  let r := c.malloc size m.world
  (r.1, { world := r.2, trace := m.trace ++ [Event.malloc size r.1] })

/-- Call `read_block(block, buf, size)`. -/
def call_read_block (c : Collaborators W) (block : Int) (buf size : Nat) (m : Machine W) :
    Int × Machine W :=
  let r := c.read_block block buf size m.world
  (r.1, { world := r.2, trace := m.trace ++ [Event.read_block block buf size r.1] })

/-- Call `init_ilist(sb)`. -/
def call_init_ilist (c : Collaborators W) (sb : Nat) (m : Machine W) : Int × Machine W :=
  let r := c.init_ilist sb m.world
  (r.1, { world := r.2, trace := m.trace ++ [Event.init_ilist sb r.1] })

/-- Call `free(ptr)`. -/
def call_free (c : Collaborators W) (ptr : Nat) (m : Machine W) : Machine W :=
  { world := c.free ptr m.world, trace := m.trace ++ [Event.free ptr] }

/-- Call `cleanup_ilist()`. -/
def call_cleanup_ilist (c : Collaborators W) (m : Machine W) : Int × Machine W :=
  let r := c.cleanup_ilist m.world
  (r.1, { world := r.2, trace := m.trace ++ [Event.cleanup_ilist r.1] })

/-- Call `close_device()`. -/
def call_close_device (c : Collaborators W) (m : Machine W) : Int × Machine W :=
  let r := c.close_device m.world
  (r.1, { world := r.2, trace := m.trace ++ [Event.close_device r.1] })

/-- Call `printf(text)`; the text goes to standard output. -/
def call_printf (text : String) (m : Machine W) : Machine W :=
  { m with trace := m.trace ++ [Event.printf text] }

/-! ## `main` -/

/-- The function `main` of `h2fs.c`: the exit status and the final machine state.
```
int main() {
  if (open_device("/dev/loop0") < 0) {
    printf("Failed to open device\n");
    return 1;
  }
  superblock *sb = malloc(sizeof(superblock));
  read_block(0, sb, sizeof(superblock));
  init_ilist(sb);
  free(sb);
  cleanup_ilist();
  close_device();
  return 0;
}
```
-/
def main (c : Collaborators W) (w0 : W) : Int × Machine W :=
  let m0 : Machine W := { world := w0, trace := [] }
  let o := call_open_device c "/dev/loop0" m0
  if o.1 < 0 then
    let p := call_printf "Failed to open device\n" o.2
    (1, p)
  else
    let a := call_malloc c c.sizeof_superblock o.2
    let sb := a.1
    let r := call_read_block c 0 sb c.sizeof_superblock a.2
    let i := call_init_ilist c sb r.2
    let f := call_free c sb i.2
    let u := call_cleanup_ilist c f
    let d := call_close_device c u.2
    (0, d.2)

/-- Exit status of a run. -/
def exit_status (c : Collaborators W) (w0 : W) : Int := (main c w0).1

/-- Calls made during a run, oldest first. -/
def run_trace (c : Collaborators W) (w0 : W) : List Event := (main c w0).2.trace

/-- The operations of a run, oldest first. -/
def run_ops (c : Collaborators W) (w0 : W) : List Op := (run_trace c w0).map Event.op

/-- The collaborator operations of a run, oldest first. -/
def collaborator_ops (c : Collaborators W) (w0 : W) : List Op :=
  (run_ops c w0).filter Op.is_collaborator

/-- What a run wrote to standard output, oldest first. -/
def stdout_text (c : Collaborators W) (w0 : W) : List String :=
  (run_trace c w0).filterMap fun e =>
    match e with
    | .printf s => some s
    | _ => none

/-- The result of the run's `open_device("/dev/loop0")` call. -/
def open_result (c : Collaborators W) (w0 : W) : Int := (c.open_device "/dev/loop0" w0).1

/-! ## Disciplines a trace can be checked against -/

/-- Replays a trace against the device handle: the handle is open after an
`open_device` that returned `>= 0`, not open after one that returned a negative
value, and not open after `close_device`.  The check fails as soon as a
`read_block`, `init_ilist` or `cleanup_ilist` is met while the handle is not
open.  The first argument says whether the handle is open before the trace. -/
def device_discipline : Bool → List Event → Bool
  | _, [] => true
  | _, Event.open_device _ r :: rest => device_discipline (decide (0 ≤ r)) rest
  | _, Event.close_device _ :: rest => device_discipline false rest
  | is_open, e :: rest => (!e.op.needs_device || is_open) && device_discipline is_open rest

/-- Replays a trace against the inode list: a list is live after an
`init_ilist` that returned `>= 0` (the convention `main` applies to
`open_device`), and no list is live after an `init_ilist` that returned a
negative value or after `cleanup_ilist`.  The check fails as soon as a
`cleanup_ilist` is met while no list is live.  The first argument says whether a
list is live before the trace. -/
def ilist_discipline : Bool → List Event → Bool
  | _, [] => true
  | _, Event.init_ilist _ r :: rest => ilist_discipline (decide (0 ≤ r)) rest
  | live, Event.cleanup_ilist _ :: rest => live && ilist_discipline false rest
  | live, _ :: rest => ilist_discipline live rest

/-- Number of calls of `op` among the first `k` operations of `ops`. -/
def calls_before (op : Op) (k : Nat) (ops : List Op) : Nat := (ops.take k).count op

/-! ## Concrete collaborators used to instantiate the theorems -/

/-- Collaborators on the world of "number of calls made so far": every call
succeeds, `malloc` hands out address 4096, a superblock is 28 bytes. -/
def healthy : Collaborators Nat where
  sizeof_superblock := 28
  open_device := fun _ n => (3, n + 1)
  malloc := fun _ n => (4096, n + 1)
  read_block := fun _ _ _ n => (0, n + 1)
  init_ilist := fun _ n => (0, n + 1)
  free := fun _ n => n + 1
  cleanup_ilist := fun n => (0, n + 1)
  close_device := fun n => (0, n + 1)

/-- As `healthy`, but the device cannot be opened. -/
def no_device : Collaborators Nat :=
  { healthy with open_device := fun _ n => (-1, n + 1) }

/-- As `healthy`, but every read fails. -/
def bad_read : Collaborators Nat :=
  { healthy with read_block := fun _ _ _ n => (-1, n + 1) }

/-- As `healthy`, but the inode list cannot be initialized. -/
def bad_init : Collaborators Nat :=
  { healthy with init_ilist := fun _ n => (-1, n + 1) }

/-! ## The metadata layer

`h2fs.c` only calls into the block device layer, the superblock layer and the
inode list manager; their code is not part of the translation unit.  The
definitions of this section follow the written specification of those layers
(sections 3, 4, 6 and 7).
-/

/-- One byte of the device. -/
abbrev Byte := Fin 256

/-- An unsigned value that fits the four bytes an on-disk field occupies. -/
abbrev U32 := Fin 4294967296

/-- Modelled from the spec: the error taxonomy of section 7 (the device, format
and usage errors returned by the layers declared in `block_io.h` and `ilist.h`,
whose code is missing). -/
inductive FsError
  | DeviceNotFound
  | PermissionDenied
  | AlreadyOpen
  | DeviceClosed
  | OutOfRange
  | ShortRead
  | ShortWrite
  | IOError
  | BadMagic
  | CorruptSuperblock
  | CorruptInode
  | NotFound
  | UseAfterRelease
deriving DecidableEq, Repr

/-- Modelled from the spec: the `superblock` record, whose declaration is
missing.  Section 6 fixes seven fields of four bytes each, so every field is an
unsigned 32-bit value. -/
structure Superblock where
  magic : U32
  version : U32
  block_size : U32
  total_blocks : U32
  inode_count : U32
  inode_table_start : U32
  inode_table_blocks : U32
deriving DecidableEq, Repr

/-- The layout invariant of section 3:
`inode_table_start + inode_table_blocks <= total_blocks` (no wrap-around: the
sum is taken in the naturals). -/
def Superblock.layout_ok (sb : Superblock) : Prop :=
  sb.inode_table_start.val + sb.inode_table_blocks.val ≤ sb.total_blocks.val

instance (sb : Superblock) : Decidable sb.layout_ok :=
  inferInstanceAs (Decidable (_ ≤ _))

/-- Modelled from the spec: a four-byte field in the byte order section 6 fixes
(little-endian: least significant byte first).  The encoder is missing from
the sources. -/
def encode_le32 (x : U32) : List Byte :=
  [⟨x.val % 256, Nat.mod_lt _ (by decide)⟩,
   ⟨x.val / 256 % 256, Nat.mod_lt _ (by decide)⟩,
   ⟨x.val / 65536 % 256, Nat.mod_lt _ (by decide)⟩,
   ⟨x.val / 16777216 % 256, Nat.mod_lt _ (by decide)⟩]

/-- Modelled from the spec: the value of four little-endian bytes. -/
def decode_le32 (b0 b1 b2 b3 : Byte) : U32 :=
  ⟨b0.val + 256 * b1.val + 65536 * b2.val + 16777216 * b3.val, by omega⟩

/-- Modelled from the spec: take one four-byte little-endian field off the front
of a byte sequence; `none` when fewer than four bytes are left. -/
def read_le32 : List Byte → Option (U32 × List Byte)
  | b0 :: b1 :: b2 :: b3 :: rest => some (decode_le32 b0 b1 b2 b3, rest)
  | _ => none

/-- Modelled from the spec: the on-disk image of a superblock (section 6): magic,
version, block_size, total_blocks, inode_count, inode_table_start,
inode_table_blocks, four little-endian bytes each, then reserved padding up to
the size of the block.  The encoder is missing from the sources. -/
def encode_superblock (device_block_size : Nat) (sb : Superblock) : List Byte :=
  encode_le32 sb.magic ++ encode_le32 sb.version ++ encode_le32 sb.block_size ++
    encode_le32 sb.total_blocks ++ encode_le32 sb.inode_count ++
    encode_le32 sb.inode_table_start ++ encode_le32 sb.inode_table_blocks ++
    List.replicate (device_block_size - 28) 0

/-- Modelled from the spec: the pure byte-to-struct transform of section 4.2,
reading the seven fields in order and ignoring the padding; `none` when the
bytes are too few.  The decoder is missing from the sources. -/
def decode_superblock (bytes : List Byte) : Option Superblock :=
  match read_le32 bytes with
  | none => none
  | some (magic, r1) =>
  match read_le32 r1 with
  | none => none
  | some (version, r2) =>
  match read_le32 r2 with
  | none => none
  | some (block_size, r3) =>
  match read_le32 r3 with
  | none => none
  | some (total_blocks, r4) =>
  match read_le32 r4 with
  | none => none
  | some (inode_count, r5) =>
  match read_le32 r5 with
  | none => none
  | some (inode_table_start, r6) =>
  match read_le32 r6 with
  | none => none
  | some (inode_table_blocks, _) =>
    some { magic, version, block_size, total_blocks, inode_count, inode_table_start,
           inode_table_blocks }

/-- Modelled from the spec: the block device handle of section 3, whose code is
missing.  `data` is the addressable range of the device, `is_open` is false once
the handle is closed, and `fault` is the transport: the error, if any, with
which a read of a given block fails (`ShortRead`, `IOError`). -/
structure BlockDevice where
  device_block_size : Nat
  data : List Byte
  is_open : Bool
  fault : Nat → Option FsError

/-- Modelled from the spec: `read_block(handle, block_number, buffer, size)` of
section 4.1, missing from the sources: exactly `size` bytes from byte offset
`block_number * device_block_size`; `DeviceClosed` on a closed handle,
`OutOfRange` when offset plus size exceeds the addressable range, otherwise the
transport's error if it reports one. -/
def read_block (dev : BlockDevice) (block_number size : Nat) : Except FsError (List Byte) :=
  if dev.is_open = false then Except.error FsError.DeviceClosed
  else if dev.data.length < block_number * dev.device_block_size + size then
    Except.error FsError.OutOfRange
  else
    match dev.fault block_number with
    | some e => Except.error e
    | none => Except.ok ((dev.data.drop (block_number * dev.device_block_size)).take size)

/-- Modelled from the spec: the fixed-size inode record format, which section 3
leaves filesystem-specific: the record size and the decoder, which answers
`none` for a record whose type tag is not a known kind. -/
structure InodeFormat (I : Type) where
  record_size : Nat
  decode : List Byte → Option I

/-- Modelled from the spec: the externally visible states of an inode list
(section 4.3).  `Uninitialized` and `Initializing` are never the state of a list
object: `init_ilist` returns a `Ready` list or no list. -/
inductive ListState
  | Ready
  | Released
deriving DecidableEq, Repr

/-- Modelled from the spec: the in-memory inode list of section 3, missing from
the sources: the declared number of inodes, the materialized records indexed
from 0, and the lifecycle state. -/
structure InodeList (I : Type) where
  inode_count : Nat
  inodes : List I
  state : ListState

/-- Modelled from the spec: the first `n` fixed-size records of a table block. -/
def split_records (record_size : Nat) : Nat → List Byte → List (List Byte)
  | 0, _ => []
  | n + 1, bytes =>
    bytes.take record_size :: split_records record_size n (bytes.drop record_size)

/-- Modelled from the spec: `n` reads of `size` bytes through the block device
layer, from block `start` on; the first device error is passed on unchanged. -/
def read_table (dev : BlockDevice) (size : Nat) : Nat → Nat → Except FsError (List (List Byte))
  | _, 0 => Except.ok []
  | start, n + 1 =>
    match read_block dev start size with
    | Except.error e => Except.error e
    | Except.ok block =>
      match read_table dev size (start + 1) n with
      | Except.error e => Except.error e
      | Except.ok rest => Except.ok (block :: rest)

/-- Modelled from the spec: decode raw records in order; a record the format
rejects is `CorruptInode` and nothing is returned. -/
def decode_records {I : Type} (fmt : InodeFormat I) : List (List Byte) → Except FsError (List I)
  | [] => Except.ok []
  | raw :: rest =>
    match fmt.decode raw with
    | none => Except.error FsError.CorruptInode
    | some inode =>
      match decode_records fmt rest with
      | Except.error e => Except.error e
      | Except.ok inodes => Except.ok (inode :: inodes)

/-- Modelled from the spec: `init_ilist(superblock, handle)` of section 4.3,
missing from the sources.  A superblock violating the layout invariant is
`CorruptSuperblock` before any block is read.  Otherwise `inode_table_blocks`
blocks are read from `inode_table_start` on, each is cut into
`block_size / record_size` records, and records are decoded until `inode_count`
of them are materialized; records past `inode_count` are not decoded.  The list
is materialized eagerly.  The spec names no error for a table that ends before
`inode_count` records; as a returned list is a table of `inode_count` records
(section 3), that case returns no list and is reported as `CorruptSuperblock`. -/
def init_ilist {I : Type} (fmt : InodeFormat I) (sb : Superblock) (dev : BlockDevice) :
    Except FsError (InodeList I) :=
  if sb.total_blocks.val < sb.inode_table_start.val + sb.inode_table_blocks.val then
    Except.error FsError.CorruptSuperblock
  else
    match read_table dev sb.block_size.val sb.inode_table_start.val sb.inode_table_blocks.val with
    | Except.error e => Except.error e
    | Except.ok blocks =>
      let per_block := sb.block_size.val / fmt.record_size
      let raw := (blocks.flatMap (split_records fmt.record_size per_block)).take sb.inode_count.val
      if raw.length < sb.inode_count.val then Except.error FsError.CorruptSuperblock
      else
        match decode_records fmt raw with
        | Except.error e => Except.error e
        | Except.ok inodes =>
          Except.ok { inode_count := sb.inode_count.val, inodes := inodes, state := ListState.Ready }

/-- Result of `lookup_inode`.  `out_of_bounds` stands for an access outside the
materialized table, the behaviour the contract rules out. -/
inductive Lookup (I : Type)
  | inode (i : I)
  | failed (e : FsError)
  | out_of_bounds
deriving DecidableEq, Repr

/-- Modelled from the spec: `lookup_inode(list, inode_number)` of section 4.3,
missing from the sources: `UseAfterRelease` on a released list, `NotFound` for
`inode_number < 0` or `inode_number >= inode_count`, otherwise the record at
that index (inode numbers are 0-based). -/
def lookup_inode {I : Type} (list : InodeList I) (inode_number : Int) : Lookup I :=
  if list.state = ListState.Released then Lookup.failed FsError.UseAfterRelease
  else if inode_number < 0 ∨ (list.inode_count : Int) ≤ inode_number then
    Lookup.failed FsError.NotFound
  else
    match list.inodes[inode_number.toNat]? with
    | some i => Lookup.inode i
    | none => Lookup.out_of_bounds

/-- A superblock for a small filesystem: 32-byte blocks, 6 blocks, 3 inodes in
the two table blocks 1 and 2. -/
def tiny_superblock : Superblock where
  magic := 0x48324653
  version := 1
  block_size := 32
  total_blocks := 6
  inode_count := 3
  inode_table_start := 1
  inode_table_blocks := 2

/-- An inode format with 16-byte records: the first byte is the type tag (1 and
2 are the known kinds), the second the link count; the rest is not looked at. -/
def tiny_format : InodeFormat (Byte × Byte) where
  record_size := 16
  decode := fun raw =>
    match raw with
    | tag :: links :: _ => if tag = 1 ∨ tag = 2 then some (tag, links) else none
    | _ => none

/-- An open 192-byte device laid out for `tiny_superblock`: block 0 is the
superblock image, blocks 1 and 2 hold four inode records, of which the fourth
has an unknown tag and lies past `inode_count`. -/
def tiny_device : BlockDevice where
  device_block_size := 32
  data := encode_superblock 32 tiny_superblock ++
    (([2, 2] ++ List.replicate 14 0) ++ ([1, 1] ++ List.replicate 14 0)) ++
    (([1, 3] ++ List.replicate 14 0) ++ ([9, 9] ++ List.replicate 14 0)) ++
    List.replicate 96 0
  is_open := true
  fault := fun _ => none

/-! ## The two shapes of a run -/

theorem run_trace_open_failed (c : Collaborators W) (w0 : W) (h : open_result c w0 < 0) :
    run_trace c w0 =
      [Event.open_device "/dev/loop0" (open_result c w0),
       Event.printf "Failed to open device\n"] := by
  unfold open_result at h
  simp [run_trace, main, call_open_device, call_printf, open_result, h]

theorem run_trace_open_ok (c : Collaborators W) (w0 : W) (h : 0 ≤ open_result c w0) :
    ∃ p r i u d,
      run_trace c w0 =
        [Event.open_device "/dev/loop0" (open_result c w0),
         Event.malloc c.sizeof_superblock p,
         Event.read_block 0 p c.sizeof_superblock r,
         Event.init_ilist p i,
         Event.free p,
         Event.cleanup_ilist u,
         Event.close_device d] := by
  unfold open_result at h
  have h' : ¬ (c.open_device "/dev/loop0" w0).1 < 0 := not_lt.mpr h
  simp only [run_trace, main, call_open_device, call_malloc, call_read_block,
    call_init_ilist, call_free, call_cleanup_ilist, call_close_device, open_result, h',
    if_false, List.nil_append, List.cons_append, List.append_assoc]
  exact ⟨_, _, _, _, _, rfl⟩

theorem run_ops_open_failed (c : Collaborators W) (w0 : W) (h : open_result c w0 < 0) :
    run_ops c w0 = [Op.open_device, Op.printf] := by
  simp [run_ops, run_trace_open_failed c w0 h, Event.op]

theorem run_ops_open_ok (c : Collaborators W) (w0 : W) (h : 0 ≤ open_result c w0) :
    run_ops c w0 =
      [Op.open_device, Op.malloc, Op.read_block, Op.init_ilist, Op.free, Op.cleanup_ilist,
       Op.close_device] := by
  obtain ⟨p, r, i, u, d, ht⟩ := run_trace_open_ok c w0 h
  simp [run_ops, ht, Event.op]

theorem exit_status_eq (c : Collaborators W) (w0 : W) :
    exit_status c w0 = if open_result c w0 < 0 then 1 else 0 := by
  unfold exit_status main open_result
  by_cases h : (c.open_device "/dev/loop0" w0).1 < 0 <;> simp [call_open_device, h]

/-! ## The claims about `main` -/

/-- C1: in every run in which `open_device("/dev/loop0")` returns a value `>= 0`,
the collaborator operations `main` invokes are exactly `open_device`,
`read_block`, `init_ilist`, `cleanup_ilist`, `close_device`, once each and in
that order, whatever the later operations return. -/
theorem main_collaborator_sequence (c : Collaborators W) (w0 : W)
    (h : 0 ≤ open_result c w0) :
    collaborator_ops c w0 =
      [Op.open_device, Op.read_block, Op.init_ilist, Op.cleanup_ilist, Op.close_device] := by
  simp [collaborator_ops, run_ops_open_ok c w0 h, Op.is_collaborator]

theorem main_collaborator_sequence_witness :
    0 ≤ open_result healthy 0 ∧
      collaborator_ops healthy 0 =
        [Op.open_device, Op.read_block, Op.init_ilist, Op.cleanup_ilist, Op.close_device] :=
  ⟨by decide, main_collaborator_sequence healthy 0 (by decide)⟩

/-- C2: in every run in which `open_device` returns a negative value, `main`
prints the diagnostic "Failed to open device", exits with status 1, and invokes
none of `read_block`, `init_ilist`, `cleanup_ilist`, `close_device`. -/
theorem main_open_failure (c : Collaborators W) (w0 : W) (h : open_result c w0 < 0) :
    stdout_text c w0 = ["Failed to open device\n"] ∧
      exit_status c w0 = 1 ∧
      collaborator_ops c w0 = [Op.open_device] ∧
      Op.read_block ∉ run_ops c w0 ∧ Op.init_ilist ∉ run_ops c w0 ∧
      Op.cleanup_ilist ∉ run_ops c w0 ∧ Op.close_device ∉ run_ops c w0 := by
  refine ⟨?_, ?_, ?_, ?_⟩
  · simp [stdout_text, run_trace_open_failed c w0 h]
  · simp [exit_status_eq, h]
  · simp [collaborator_ops, run_ops_open_failed c w0 h, Op.is_collaborator]
  · simp [run_ops_open_failed c w0 h]

theorem main_open_failure_witness :
    open_result no_device 0 < 0 ∧
      stdout_text no_device 0 = ["Failed to open device\n"] ∧
      exit_status no_device 0 = 1 ∧
      collaborator_ops no_device 0 = [Op.open_device] ∧
      Op.read_block ∉ run_ops no_device 0 ∧ Op.init_ilist ∉ run_ops no_device 0 ∧
      Op.cleanup_ilist ∉ run_ops no_device 0 ∧ Op.close_device ∉ run_ops no_device 0 :=
  ⟨by decide, main_open_failure no_device 0 (by decide)⟩

/-- C3 (the code at a failing read): with collaborators whose `open_device`
succeeds and whose `read_block` of block 0 returns the failure value -1, `main`
still hands the buffer to `init_ilist`, prints nothing and exits with status 0. -/
theorem main_ignores_failed_read :
    0 ≤ open_result bad_read 0 ∧
      Event.read_block 0 4096 28 (-1) ∈ run_trace bad_read 0 ∧
      Event.init_ilist 4096 0 ∈ run_trace bad_read 0 ∧
      stdout_text bad_read 0 = [] ∧
      exit_status bad_read 0 = 0 := by
  decide

/-- C4: in every run in which `open_device` succeeds, the one `read_block` call
asks for logical block 0 and for `sizeof(superblock)` bytes, which is the size
passed to the `malloc` that allocated the buffer, and the buffer it fills is the
one `malloc` returned and the one passed to `init_ilist`. -/
theorem main_superblock_read (c : Collaborators W) (w0 : W) (h : 0 ≤ open_result c w0) :
    ∃ p r i,
      (run_trace c w0).filter
          (fun e => e.op = Op.malloc ∨ e.op = Op.read_block ∨ e.op = Op.init_ilist) =
        [Event.malloc c.sizeof_superblock p,
         Event.read_block 0 p c.sizeof_superblock r,
         Event.init_ilist p i] := by
  obtain ⟨p, r, i, u, d, ht⟩ := run_trace_open_ok c w0 h
  exact ⟨p, r, i, by simp [ht, Event.op]⟩

theorem main_superblock_read_witness :
    0 ≤ open_result healthy 0 ∧
      ∃ p r i,
        (run_trace healthy 0).filter
            (fun e => e.op = Op.malloc ∨ e.op = Op.read_block ∨ e.op = Op.init_ilist) =
          [Event.malloc healthy.sizeof_superblock p,
           Event.read_block 0 p healthy.sizeof_superblock r,
           Event.init_ilist p i] :=
  ⟨by decide, main_superblock_read healthy 0 (by decide)⟩

/-- Counting calls only, and in every run of `main`: `cleanup_ilist` is called
at most once, as many times as `init_ilist`, and each `cleanup_ilist` call has
exactly one more `init_ilist` call than `cleanup_ilist` calls before it.  The
result of `init_ilist` plays no part in this. -/
theorem main_cleanup_counts (c : Collaborators W) (w0 : W) :
    (run_ops c w0).count Op.cleanup_ilist ≤ 1 ∧
      (run_ops c w0).count Op.cleanup_ilist = (run_ops c w0).count Op.init_ilist ∧
      ∀ k < (run_ops c w0).length, (run_ops c w0)[k]? = some Op.cleanup_ilist →
        calls_before Op.init_ilist k (run_ops c w0) =
          calls_before Op.cleanup_ilist k (run_ops c w0) + 1 := by
  rcases lt_or_le (open_result c w0) 0 with h | h
  · rw [run_ops_open_failed c w0 h]
    decide
  · rw [run_ops_open_ok c w0 h]
    decide

/-- A run of `main` respects the inode list exactly when no `init_ilist` call of
the run returned a negative value: `main` calls `cleanup_ilist` whatever
`init_ilist` returned. -/
theorem main_ilist_discipline_iff (c : Collaborators W) (w0 : W) :
    ilist_discipline false (run_trace c w0) = true ↔
      ∀ sb r, Event.init_ilist sb r ∈ run_trace c w0 → 0 ≤ r := by
  rcases lt_or_le (open_result c w0) 0 with h | h
  · rw [run_trace_open_failed c w0 h]
    simp [ilist_discipline]
  · obtain ⟨p, r, i, u, d, ht⟩ := run_trace_open_ok c w0 h
    rw [ht]
    simp [ilist_discipline]

/-- C5 (the code at a failing `init_ilist`): with collaborators whose
`open_device` and `read_block` succeed and whose `init_ilist` returns the failure
value -1, `main` still calls `cleanup_ilist`, once, after that failed
`init_ilist`: it is invoked although no list was initialized, so the run breaks
the inode list discipline, which the all-succeeding run keeps. -/
theorem main_cleanup_after_failed_init :
    run_trace bad_init 0 =
        [Event.open_device "/dev/loop0" 3, Event.malloc 28 4096,
         Event.read_block 0 4096 28 0, Event.init_ilist 4096 (-1), Event.free 4096,
         Event.cleanup_ilist 0, Event.close_device 0] ∧
      ilist_discipline false (run_trace bad_init 0) = false ∧
      ilist_discipline false (run_trace healthy 0) = true := by
  decide

/-- C6: in every run of `main`, no `read_block`, `init_ilist` or `cleanup_ilist`
call is made while the device is not open (before a successful `open_device`,
after a failed one, or after `close_device`); once `close_device` has been called
no collaborator operation follows it, and when the open succeeds `close_device`
is the last collaborator operation of the run. -/
theorem main_device_discipline (c : Collaborators W) (w0 : W) :
    device_discipline false (run_trace c w0) = true ∧
      (∀ pre d post, run_trace c w0 = pre ++ Event.close_device d :: post →
        ∀ e ∈ post, e.op.is_collaborator = false) ∧
      (0 ≤ open_result c w0 → (collaborator_ops c w0).getLast? = some Op.close_device) := by
  rcases lt_or_le (open_result c w0) 0 with h | h
  · refine ⟨?_, ?_, fun h0 => absurd h (not_lt.mpr h0)⟩
    · rw [run_trace_open_failed c w0 h]
      simp [device_discipline, Event.op, Op.needs_device]
    · intro pre d post hsplit
      have hmem : Event.close_device d ∈ run_trace c w0 := by
        rw [hsplit]; simp
      rw [run_trace_open_failed c w0 h] at hmem
      simp at hmem
  · obtain ⟨p, r, i, u, d0, ht⟩ := run_trace_open_ok c w0 h
    refine ⟨?_, ?_, fun _ => ?_⟩
    · rw [ht]
      simp [device_discipline, Event.op, Op.needs_device, h]
    · intro pre d post hsplit e he
      rw [ht] at hsplit
      rcases pre with _ | ⟨a0, _ | ⟨a1, _ | ⟨a2, _ | ⟨a3, _ | ⟨a4, _ | ⟨a5, _ | ⟨a6, pre⟩⟩⟩⟩⟩⟩⟩
      all_goals simp at hsplit
      rw [hsplit.2.2.2.2.2.2.2] at he
      simp at he
    · simp [collaborator_ops, run_ops_open_ok c w0 h, Op.is_collaborator]

theorem main_device_discipline_witness :
    device_discipline false (run_trace healthy 0) = true ∧
      (∀ e ∈ ([] : List Event), e.op.is_collaborator = false) ∧
      (collaborator_ops healthy 0).getLast? = some Op.close_device :=
  ⟨(main_device_discipline healthy 0).1,
   (main_device_discipline healthy 0).2.1
     [Event.open_device "/dev/loop0" 3, Event.malloc 28 4096, Event.read_block 0 4096 28 0,
      Event.init_ilist 4096 0, Event.free 4096, Event.cleanup_ilist 0]
     0 [] (by decide),
   (main_device_discipline healthy 0).2.2 (by decide)⟩

/-- C7: in every run in which `open_device` succeeds, the superblock buffer is
allocated by the run's only `malloc`, filled by the run's only `read_block` (of
block 0), passed to `init_ilist`, and released by the run's only `free`, in that
order; `main` passes no pointer to any call made before the `malloc` or after
the `free`. -/
theorem main_buffer_lifetime (c : Collaborators W) (w0 : W) (h : 0 ≤ open_result c w0) :
    ∃ p r i pre post,
      run_trace c w0 =
        pre ++ [Event.malloc c.sizeof_superblock p,
                Event.read_block 0 p c.sizeof_superblock r,
                Event.init_ilist p i,
                Event.free p] ++ post ∧
      ∀ e ∈ pre ++ post,
        e.op ≠ Op.malloc ∧ e.op ≠ Op.read_block ∧ e.op ≠ Op.free ∧ e.pointer_arg = none := by
  obtain ⟨p, r, i, u, d, ht⟩ := run_trace_open_ok c w0 h
  refine ⟨p, r, i, [Event.open_device "/dev/loop0" (open_result c w0)],
    [Event.cleanup_ilist u, Event.close_device d], by simp [ht], ?_⟩
  intro e he
  simp at he
  rcases he with rfl | rfl | rfl <;> simp [Event.op, Event.pointer_arg]

theorem main_buffer_lifetime_witness :
    0 ≤ open_result healthy 0 ∧
      ∃ p r i pre post,
        run_trace healthy 0 =
          pre ++ [Event.malloc healthy.sizeof_superblock p,
                  Event.read_block 0 p healthy.sizeof_superblock r,
                  Event.init_ilist p i,
                  Event.free p] ++ post ∧
        ∀ e ∈ pre ++ post,
          e.op ≠ Op.malloc ∧ e.op ≠ Op.read_block ∧ e.op ≠ Op.free ∧ e.pointer_arg = none :=
  ⟨by decide, main_buffer_lifetime healthy 0 (by decide)⟩

/-- C10: the exit status of `main` is a function of the result of `open_device`
alone: it is 1 when that result is negative and 0 otherwise, whatever
`read_block`, `init_ilist`, `cleanup_ilist` and `close_device` return, so two
runs (under any collaborators, from any worlds) that agree on the result of
`open_device` exit with the same status. -/
theorem main_exit_status_open_only {W1 W2 : Type} (c1 : Collaborators W1) (w1 : W1)
    (c2 : Collaborators W2) (w2 : W2) :
    exit_status c1 w1 = (if open_result c1 w1 < 0 then 1 else 0) ∧
      (open_result c1 w1 = open_result c2 w2 → exit_status c1 w1 = exit_status c2 w2) := by
  refine ⟨exit_status_eq c1 w1, fun h => ?_⟩
  rw [exit_status_eq, exit_status_eq, h]

theorem main_exit_status_open_only_witness :
    exit_status healthy 0 = (if open_result healthy 0 < 0 then 1 else 0) ∧
      exit_status healthy 0 = exit_status bad_read 7 :=
  ⟨(main_exit_status_open_only healthy 0 bad_read 7).1,
   (main_exit_status_open_only healthy 0 bad_read 7).2 (by decide)⟩

/-! ## The claims about the metadata layer -/

set_option maxRecDepth 8000 in
theorem tiny_init_rejects_unknown_tag :
    init_ilist tiny_format { tiny_superblock with inode_count := 4 } tiny_device =
      Except.error FsError.CorruptInode := by
  rfl

set_option maxRecDepth 8000 in
theorem tiny_init_rejects_short_table :
    init_ilist tiny_format { tiny_superblock with inode_count := 5 } tiny_device =
      Except.error FsError.CorruptSuperblock := by
  rfl

theorem tiny_device_holds_superblock :
    decode_superblock (tiny_device.data.take 32) = some tiny_superblock := by
  decide

theorem read_le32_encode (x : U32) (rest : List Byte) :
    read_le32 (encode_le32 x ++ rest) = some (x, rest) := by
  simp only [encode_le32, read_le32, List.cons_append, List.nil_append, decode_le32]
  congr 2
  apply Fin.ext
  simp only
  omega

theorem decode_records_length {I : Type} (fmt : InodeFormat I) :
    ∀ (raw : List (List Byte)) (inodes : List I),
      decode_records fmt raw = Except.ok inodes → inodes.length = raw.length
  | [], inodes, h => by
    simp [decode_records] at h
    simp [← h]
  | r :: rs, inodes, h => by
    simp only [decode_records] at h
    split at h
    · cases h
    · split at h
      · cases h
      · rename_i rest hrest
        cases h
        simp [decode_records_length fmt rs rest hrest]

/-- C9: for every superblock satisfying the layout invariant
`inode_table_start + inode_table_blocks <= total_blocks`, encoding it to the
fixed little-endian on-disk layout (for any block size) and decoding the result
yields the identical superblock. -/
theorem superblock_roundtrip (device_block_size : Nat) (sb : Superblock)
    (_h : sb.layout_ok) :
    decode_superblock (encode_superblock device_block_size sb) = some sb := by
  simp only [encode_superblock, decode_superblock, List.append_assoc, read_le32_encode]

theorem superblock_roundtrip_witness :
    tiny_superblock.layout_ok ∧
      decode_superblock (encode_superblock 32 tiny_superblock) = some tiny_superblock :=
  ⟨by decide, superblock_roundtrip 32 tiny_superblock (by decide)⟩

theorem init_ilist_ready {I : Type} (fmt : InodeFormat I) (sb : Superblock) (dev : BlockDevice)
    (list : InodeList I) (h : init_ilist fmt sb dev = Except.ok list) :
    list.inode_count = sb.inode_count.val ∧ list.inodes.length = sb.inode_count.val ∧
      list.state = ListState.Ready := by
  unfold init_ilist at h
  split at h
  · cases h
  · split at h
    · cases h
    · rename_i blocks hblocks
      simp only at h
      split at h
      · cases h
      · rename_i hlen
        split at h
        · cases h
        · rename_i inodes hdec
          cases h
          have h1 := decode_records_length fmt _ inodes hdec
          have h2 := List.length_take_le sb.inode_count.val
            (blocks.flatMap (split_records fmt.record_size (sb.block_size.val / fmt.record_size)))
          refine ⟨rfl, ?_, rfl⟩
          simp only
          omega

/-- C8: after a successful `init_ilist`, `lookup_inode` returns a decoded inode
for every inode number in `[0, inode_count)`, and `NotFound` for every inode
number `>= inode_count`; it never reaches outside the table. -/
theorem lookup_inode_after_init {I : Type} (fmt : InodeFormat I) (sb : Superblock)
    (dev : BlockDevice) (list : InodeList I) (h : init_ilist fmt sb dev = Except.ok list) :
    (∀ n : Int, 0 ≤ n → n < (sb.inode_count.val : Int) →
        ∃ i, lookup_inode list n = Lookup.inode i) ∧
      (∀ n : Int, (sb.inode_count.val : Int) ≤ n →
        lookup_inode list n = Lookup.failed FsError.NotFound) ∧
      ∀ n : Int, lookup_inode list n ≠ Lookup.out_of_bounds := by
  obtain ⟨hcount, hlen, hstate⟩ := init_ilist_ready fmt sb dev list h
  have inside : ∀ n : Int, 0 ≤ n → n < (sb.inode_count.val : Int) →
      ∃ i, lookup_inode list n = Lookup.inode i := by
    intro n h0 h1
    have hn : n.toNat < list.inodes.length := by omega
    have hcond : ¬ (n < 0 ∨ (list.inode_count : Int) ≤ n) := by omega
    refine ⟨list.inodes[n.toNat], ?_⟩
    simp [lookup_inode, hstate, hcond, List.getElem?_eq_getElem hn]
  have outside : ∀ n : Int, n < 0 ∨ (sb.inode_count.val : Int) ≤ n →
      lookup_inode list n = Lookup.failed FsError.NotFound := by
    intro n h1
    have hcond : n < 0 ∨ (list.inode_count : Int) ≤ n := by omega
    simp [lookup_inode, hstate, hcond]
  refine ⟨inside, fun n hn => outside n (Or.inr hn), ?_⟩
  intro n
  by_cases hin : 0 ≤ n ∧ n < (sb.inode_count.val : Int)
  · obtain ⟨i, hi⟩ := inside n hin.1 hin.2
    simp [hi]
  · have : n < 0 ∨ (sb.inode_count.val : Int) ≤ n := by omega
    simp [outside n this]

set_option maxRecDepth 8000 in
theorem lookup_inode_after_init_witness :
    init_ilist tiny_format tiny_superblock tiny_device =
        Except.ok { inode_count := 3, inodes := [(2, 2), (1, 1), (1, 3)],
                    state := ListState.Ready } ∧
      (∀ n : Int, 0 ≤ n → n < ((3 : Nat) : Int) →
        ∃ i, lookup_inode
          ({ inode_count := 3, inodes := [(2, 2), (1, 1), (1, 3)],
             state := ListState.Ready } : InodeList (Byte × Byte)) n = Lookup.inode i) ∧
      (∀ n : Int, ((3 : Nat) : Int) ≤ n →
        lookup_inode
          ({ inode_count := 3, inodes := [(2, 2), (1, 1), (1, 3)],
             state := ListState.Ready } : InodeList (Byte × Byte)) n =
          Lookup.failed FsError.NotFound) ∧
      ∀ n : Int, lookup_inode
          ({ inode_count := 3, inodes := [(2, 2), (1, 1), (1, 3)],
             state := ListState.Ready } : InodeList (Byte × Byte)) n ≠ Lookup.out_of_bounds :=
  ⟨rfl, lookup_inode_after_init tiny_format tiny_superblock tiny_device _ rfl⟩

end H2fs
